import Mathlib

/-!
Verification of the terra_hawk_crewai orchestration layer.

This development shallowly embeds the pure decision logic of the repository:
the flow orchestrator's completeness guard and report submission
(`src/terra_hawk_crewai/main.py`), the guardrail validators
(`crews/crop_crew/crop_crew.py`, `crews/compliance_crew/compliance_crew.py`),
the TTL caches (`tools/weather_api_tool.py`, compliance crew cache),
the retry wrapper (`tools/retry_utils.py`) and the S3 report key layout
(`tools/s3_report_writer.py`).

Modelling conventions:
  * A parsed JSON document is the inductive `Json`; the outcome of Python's
    `json.loads` on a raw string is an `Option Json` (`none` = the string is
    not valid JSON, i.e. `json.loads` raised `JSONDecodeError`).
  * Python code that can raise is embedded in `Except String`, the error
    carrying (an abstraction of) the exception message; `try/except` blocks
    become `match` on the `Except` value.
  * Wall-clock timestamps (`time.time()`) are rationals.
-/

/-- Parsed JSON values, as produced by Python's `json.loads`. -/
inductive Json where
  | null : Json
  | bool : Bool → Json
  | num : ℚ → Json
  | str : String → Json
  | arr : List Json → Json
  | obj : List (String × Json) → Json

/-- Dictionary lookup (Python `d[k]` / `d.get(k)` on a dict): first binding
of the key, if any. Parsed Python dicts have unique keys, so first-match
agrees with dict semantics. -/
def jlookup : List (String × Json) → String → Option Json
  | [], _ => none
  | (k, v) :: rest, key => if k = key then some v else jlookup rest key

/-- Python `k in d` for a dict `d`. -/
def hasKey (fields : List (String × Json)) (k : String) : Bool :=
  (jlookup fields k).isSome

mutual

/-- Python `json.dumps` with default separators (`", "` and `": "`).
String escaping is not modelled: the repository only serializes keys and
values free of characters needing escapes. -/
def Json.dumps : Json → String
  | .null => "null"
  | .bool true => "true"
  | .bool false => "false"
  | .num q => if q.den = 1 then toString q.num else toString q
  | .str s => "\"" ++ s ++ "\""
  | .arr xs => "[" ++ Json.dumpsArr xs ++ "]"
  | .obj fs => "\x7b" ++ Json.dumpsObj fs ++ "\x7d"

/-- Comma-separated serialization of array elements. -/
def Json.dumpsArr : List Json → String
  | [] => ""
  | [x] => Json.dumps x
  | x :: y :: rest => Json.dumps x ++ ", " ++ Json.dumpsArr (y :: rest)

/-- Comma-separated serialization of object entries. -/
def Json.dumpsObj : List (String × Json) → String
  | [] => ""
  | [(k, v)] => "\"" ++ k ++ "\": " ++ Json.dumps v
  | (k, v) :: e :: rest =>
      "\"" ++ k ++ "\": " ++ Json.dumps v ++ ", " ++ Json.dumpsObj (e :: rest)

end

/-- Python `needle in haystack` for strings: substring test. -/
def strContains (haystack needle : String) : Bool :=
  haystack.toList.tails.any (fun t => needle.toList.isPrefixOf t)

/-- Python `k in j` where `j` is an arbitrary parsed JSON value and `k` a
string. On a dict it is key membership; on a list, equality with some
element (a string equals only an equal string in Python); on a string, a
substring test; on `None`/booleans/numbers Python raises `TypeError`
(modelled as `.error`). -/
def pyIn (k : String) (j : Json) : Except String Bool :=
  match j with
  | .obj fs => .ok (hasKey fs k)
  | .arr xs => .ok (xs.any (fun x => match x with | .str s => s = k | _ => false))
  | .str s => .ok (strContains s k)
  | _ => .error "argument of type is not iterable"

/-- Python `j.get(k)` — only dicts have `.get`; anything else raises
`AttributeError` (modelled as `.error`). -/
def pyGet (j : Json) (k : String) : Except String (Option Json) :=
  match j with
  | .obj fs => .ok (jlookup fs k)
  | _ => .error "object has no attribute get"

/-- Python `j[k]` with a string key — dict indexing; a missing key raises
`KeyError`, a non-dict raises `TypeError`. -/
def pyIndex (j : Json) (k : String) : Except String Json :=
  match j with
  | .obj fs =>
      match jlookup fs k with
      | some v => .ok v
      | none => .error ("KeyError: " ++ k)
  | _ => .error "indices must be integers"

/-- Python `d[k]` where `d` is known to bind `k`; raises `KeyError` otherwise. -/
def dictIndex (fs : List (String × Json)) (k : String) : Except String Json :=
  match jlookup fs k with
  | some v => .ok v
  | none => .error ("KeyError: " ++ k)

/-- The list comprehension `[f for f in fields if f not in data]` used by
every guardrail to collect missing required fields; the `in` test itself
can raise when `data` is not a container. -/
def missingIn (data : Json) : List String → Except String (List String)
  | [] => .ok []
  | f :: fs =>
      match pyIn f data with
      | .error e => .error e
      | .ok b =>
          match missingIn data fs with
          | .error e => .error e
          | .ok rest => if b then .ok rest else .ok (f :: rest)

/-- Python `v in l` for a JSON value `v` and a list `l` of strings: in
Python, a non-string JSON value compares unequal to every string. -/
def pyStrMem (v : Json) (l : List String) : Bool :=
  match v with
  | .str s => l.contains s
  | _ => false

/-- Python `v == n` / `v != n` against an `int` `n`: numbers compare by
value and booleans coerce (`True == 1`, `False == 0`); every other JSON
value is unequal to an int. -/
def pyEqNat (v : Json) (n : ℕ) : Bool :=
  match v with
  | .num q => q = (n : ℚ)
  | .bool b => (if b then (1 : ℚ) else 0) = (n : ℚ)
  | _ => false

/-- Python `str(v)` as interpolated into f-string messages. Exact for the
scalar values the guardrails interpolate (ints, strings, booleans, None);
floats and containers are approximated, no claim depends on them. -/
def pyStr : Json → String
  | .num q => if q.den = 1 then toString q.num else toString q
  | .str s => s
  | .bool true => "True"
  | .bool false => "False"
  | .null => "None"
  | .arr _ => "[...]"
  | .obj _ => "\x7b...\x7d"

/-- A guardrail verdict: acceptance flag plus either the accepted raw
payload or the rejection reason. -/
abbrev Verdict := Bool × String

/-- The rejection produced when `json.loads` raises `JSONDecodeError`. -/
def jsonInvalidMsg : String :=
  "Output is not valid JSON. Please return a properly formatted JSON string."

/-- The rejection produced by the catch-all `except Exception` handler of
the crop-crew and compliance-crew guardrails. -/
def validationErrorMsg (e : String) : String :=
  "Validation error: " ++ e ++ ". Please check the output format."

/-- Body of `CropCrew.validate_weather_report_output` after a successful
`json.loads` (crop_crew.py lines 141–201); raising paths are `.error`. -/
def validate_weather_body (data : Json) (raw : String) : Except String Verdict := do
  let missing ← missingIn data ["weather_analysis"]
  if !missing.isEmpty then
    return (false, "Missing required fields: " ++ String.intercalate ", " missing
      ++ ". Please ensure all fields are included.")
  match (← pyGet data "weather_analysis") with
  | some (Json.obj wa) => do
    let requiredAnalysisFields := ["summary", "location", "date", "weather_data",
      "air_quality", "agricultural_assessment"]
    let missingA := requiredAnalysisFields.filter (fun f => !(hasKey wa f))
    if !missingA.isEmpty then
      return (false, "weather_analysis is missing fields: "
        ++ String.intercalate ", " missingA ++ ". Please ensure all fields are included.")
    match jlookup wa "weather_data" with
    | some (Json.obj wd) => do
      let requiredWeatherFields := ["temperature_c", "feels_like_c", "condition",
        "humidity", "wind_kph"]
      let missingW := requiredWeatherFields.filter (fun f => !(hasKey wd f))
      if !missingW.isEmpty then
        return (false, "weather_data is missing fields: "
          ++ String.intercalate ", " missingW
          ++ ". Please ensure all weather fields are included.")
      match jlookup wa "air_quality" with
      | some (Json.obj aq) => do
        let requiredAirQualityFields := ["aqi", "pm2_5", "pm10", "o3", "no2", "so2", "co"]
        let missingQ := requiredAirQualityFields.filter (fun f => !(hasKey aq f))
        if !missingQ.isEmpty then
          return (false, "air_quality is missing fields: "
            ++ String.intercalate ", " missingQ
            ++ ". Please ensure all air quality fields are included.")
        match jlookup wa "agricultural_assessment" with
        | some (Json.obj aa) => do
          let requiredAssessmentFields := ["flight_clearance_status", "disease_risk_level",
            "disease_risk_percentage", "nitrogen_volatilization_risk", "optimal_operations"]
          let missingS := requiredAssessmentFields.filter (fun f => !(hasKey aa f))
          if !missingS.isEmpty then
            return (false, "agricultural_assessment is missing fields: "
              ++ String.intercalate ", " missingS
              ++ ". Please ensure all assessment fields are included.")
          let fcs ← dictIndex aa "flight_clearance_status"
          match fcs with
          | Json.bool _ => do
            let validRiskLevels := ["Low", "Medium", "High"]
            let drl ← dictIndex aa "disease_risk_level"
            if !(pyStrMem drl validRiskLevels) then
              return (false, "disease_risk_level must be one of: "
                ++ String.intercalate ", " validRiskLevels ++ ".")
            let oo ← dictIndex aa "optimal_operations"
            match oo with
            | Json.arr _ => return (true, raw)
            | _ => return (false, "optimal_operations must be an array of strings.")
          | _ => return (false, "flight_clearance_status must be a boolean (true/false).")
        | _ => return (false,
            "The 'agricultural_assessment' field must be an object. Please return valid assessment data.")
      | _ => return (false,
          "The 'air_quality' field must be an object. Please return valid air quality data.")
    | _ => return (false,
        "The 'weather_data' field must be an object. Please return valid weather data.")
  | _ => return (false, "The 'weather_analysis' field must be an object.")

/-- `CropCrew.validate_weather_report_output` (crop_crew.py lines 128–206).
`parsed` is the outcome of `json.loads raw` (`none` = `JSONDecodeError`);
the two `except` clauses become the two non-`.ok` branches. -/
def validate_weather_report_output (parsed : Option Json) (raw : String) : Verdict :=
  match parsed with
  | none => (false, jsonInvalidMsg)
  | some data =>
      match validate_weather_body data raw with
      | .ok v => v
      | .error e => (false, validationErrorMsg e)

/-- Body of `ComplianceCrew.validate_compliance_output` after a successful
`json.loads` (compliance_crew.py lines 118–148). -/
def validate_compliance_body (data : Json) (raw : String) : Except String Verdict := do
  let missing ← missingIn data ["compliance_analysis"]
  if !missing.isEmpty then
    return (false, "Missing required fields: " ++ String.intercalate ", " missing
      ++ ". Please ensure all fields are included.")
  match (← pyGet data "compliance_analysis") with
  | some (Json.obj ca) => do
    let requiredAnalysisFields := ["summary", "topic", "date", "classification",
      "operational_impact", "nitrogen_emissions_relevance", "recommendations"]
    let missingA := requiredAnalysisFields.filter (fun f => !(hasKey ca f))
    if !missingA.isEmpty then
      return (false, "compliance_analysis is missing fields: "
        ++ String.intercalate ", " missingA ++ ". Please ensure all fields are included.")
    let validClassifications := ["Positive", "Neutral", "Negative"]
    if !(pyStrMem ((jlookup ca "classification").getD Json.null) validClassifications) then
      return (false, "classification must be one of: "
        ++ String.intercalate ", " validClassifications ++ ".")
    match jlookup ca "recommendations" with
    | some (Json.arr _) => return (true, raw)
    | _ => return (false, "The 'recommendations' field must be an array of strings.")
  | _ => return (false, "The 'compliance_analysis' field must be an object.")

/-- `ComplianceCrew.validate_compliance_output` (compliance_crew.py 105–153). -/
def validate_compliance_output (parsed : Option Json) (raw : String) : Verdict :=
  match parsed with
  | none => (false, jsonInvalidMsg)
  | some data =>
      match validate_compliance_body data raw with
      | .ok v => v
      | .error e => (false, validationErrorMsg e)

/-- Body of `ComplianceCrew.validate_eu_ai_act_output` after a successful
`json.loads` (compliance_crew.py lines 158–190). -/
def validate_eu_ai_act_body (data : Json) (raw : String) : Except String Verdict := do
  if !(← pyIn "eu_ai_act_assessment" data) then
    return (false, "Missing required 'eu_ai_act_assessment' field.")
  match (← pyGet data "eu_ai_act_assessment") with
  | some (Json.obj assessment) => do
    let requiredFields := ["summary", "system_classification", "risk_level",
      "transparency_obligations", "human_oversight_requirements",
      "data_governance_requirements", "documentation_requirements",
      "logging_requirements", "security_requirements",
      "compliance_gaps", "action_items", "overall_compliance_status"]
    let missing := requiredFields.filter (fun f => !(hasKey assessment f))
    if !missing.isEmpty then
      return (false, "eu_ai_act_assessment is missing fields: "
        ++ String.intercalate ", " missing ++ ".")
    let validRiskLevels := ["minimal_risk", "limited_risk", "high_risk"]
    if !(pyStrMem ((jlookup assessment "risk_level").getD Json.null) validRiskLevels) then
      return (false, "risk_level must be one of: "
        ++ String.intercalate ", " validRiskLevels ++ ".")
    let validStatuses := ["Compliant", "Partially Compliant", "Non-Compliant"]
    if !(pyStrMem ((jlookup assessment "overall_compliance_status").getD Json.null)
        validStatuses) then
      return (false, "overall_compliance_status must be one of: "
        ++ String.intercalate ", " validStatuses ++ ".")
    let listFields := ["transparency_obligations", "human_oversight_requirements",
      "data_governance_requirements", "documentation_requirements",
      "logging_requirements", "security_requirements", "compliance_gaps", "action_items"]
    match listFields.find? (fun f =>
        match jlookup assessment f with
        | some (Json.arr _) => false
        | _ => true) with
    | some f => return (false, f ++ " must be an array.")
    | none => return (true, raw)
  | _ => return (false, "The 'eu_ai_act_assessment' field must be an object.")

/-- `ComplianceCrew.validate_eu_ai_act_output` (compliance_crew.py 155–194). -/
def validate_eu_ai_act_output (parsed : Option Json) (raw : String) : Verdict :=
  match parsed with
  | none => (false, jsonInvalidMsg)
  | some data =>
      match validate_eu_ai_act_body data raw with
      | .ok v => v
      | .error e => (false, validationErrorMsg e)

/-- The required per-image fields of the image-retriever guardrail. -/
def requiredImageFields : List String :=
  ["key", "content_type", "s3_uri", "presigned_url"]

/-- The `for idx, image in enumerate(data['images'])` loop of
`validate_image_retriever_output`: returns the first per-image rejection,
or `none` when every image passes. -/
def imagesLoop (idx : ℕ) : List Json → Except String (Option Verdict)
  | [] => .ok none
  | img :: rest =>
      match missingIn img requiredImageFields with
      | .error e => .error e
      | .ok missing =>
          if !missing.isEmpty then
            .ok (some (false, "Image at index " ++ toString idx ++ " is missing fields: "
              ++ String.intercalate ", " missing
              ++ ". Please ensure all image fields are included."))
          else imagesLoop (idx + 1) rest

/-- Body of `CropCrew.validate_image_retriever_output` after a successful
`json.loads` (crop_crew.py lines 305–332). -/
def validate_image_retriever_body (data : Json) (raw : String) : Except String Verdict :=
  match missingIn data ["bucket_name", "num_images_found", "region", "images"] with
  | .error e => .error e
  | .ok missing =>
    if !missing.isEmpty then
      .ok (false, "Missing required fields: " ++ String.intercalate ", " missing
        ++ ". Please ensure all fields are included.")
    else
      match pyIndex data "images" with
      | .error e => .error e
      | .ok (Json.arr images) =>
          if images.length = 0 then
            .ok (false,
              "No images found in the response. Please ensure the API returned at least one image.")
          else
            match imagesLoop 0 images with
            | .error e => .error e
            | .ok (some verdict) => .ok verdict
            | .ok none =>
                match pyIndex data "num_images_found" with
                | .error e => .error e
                | .ok n =>
                    if !(pyEqNat n images.length) then
                      .ok (false, "num_images_found (" ++ pyStr n
                        ++ ") does not match actual image count (" ++ toString images.length
                        ++ "). Please correct the count.")
                    else .ok (true, raw)
      | .ok _ => .ok (false,
          "The 'images' field must be a list. Please return a valid array of images.")

/-- `CropCrew.validate_image_retriever_output` (crop_crew.py 292–337). -/
def validate_image_retriever_output (parsed : Option Json) (raw : String) : Verdict :=
  match parsed with
  | none => (false, jsonInvalidMsg)
  | some data =>
      match validate_image_retriever_body data raw with
      | .ok v => v
      | .error e => (false, validationErrorMsg e)

/-! ## Flow orchestrator (`main.py`) -/

/-- The run-state slots feeding the human-feedback checkpoint of
`SmartFarmFlow` (all four upstream report slots are carried, whether or
not the completeness guard consults them). -/
structure RunSlots where
  weather_analysis : String
  vision_analysis : String
  sensor_analysis : String
  compliance_analysis : String

/-- The completeness guard at the tail of `SmartFarmFlow.decision`
(main.py lines 259–263): it walks
`[vision_analysis, sensor_analysis, compliance_analysis]` and answers
"no" as soon as one equals `""` or `"\x7b\x7d"`, else "yes". -/
def decision_guard (s : RunSlots) : String :=
  let reports := [s.vision_analysis, s.sensor_analysis, s.compliance_analysis]
  match reports.find? (fun r => r = "" || r = "\x7b\x7d") with
  | some _ => "no"
  | none => "yes"

/-- One entry of `reports_to_write` in `SmartFarmFlow.submit_reports`
(main.py lines 274–300): report content, S3 report type, display name. -/
structure ReportSpec where
  content : String
  type : String
  name : String

/-- The run-state slots read by `submit_reports`. -/
structure SubmitSlots where
  vision_analysis : String
  sensor_analysis : String
  weather_analysis : String
  compliance_analysis : String
  summary : String

/-- The `reports_to_write` list of `submit_reports` (main.py 274–300). -/
def reports_to_write (st : SubmitSlots) : List ReportSpec :=
  [ ⟨st.vision_analysis, "vision_analysis", "Vision Analysis"⟩,
    ⟨st.sensor_analysis, "sensor_analysis", "Sensor Analysis"⟩,
    ⟨st.weather_analysis, "weather_report", "Weather Report"⟩,
    ⟨st.compliance_analysis, "compliance_report", "Compliance Report"⟩,
    ⟨st.summary, "master_report", "Master Report"⟩ ]

/-- Outcome of `submit_reports`: the accumulated per-record tallies and
the returned summary string. -/
structure SubmitOutcome where
  successful_writes : List String
  failed_writes : List String
  message : String

/-- The accumulation loop of `submit_reports` (main.py 302–321): each
record is written independently; `write r` is the `success` flag of the
dict returned by `S3ReportWriter._run` for that record (that method
catches its own exceptions and always returns a dict, s3_report_writer.py
lines 113–182). -/
def submitLoop (write : ReportSpec → Bool) :
    List ReportSpec → List String → List String → List String × List String
  | [], succ, failed => (succ, failed)
  | r :: rest, succ, failed =>
      if write r then submitLoop write rest (succ ++ [r.name]) failed
      else submitLoop write rest succ (failed ++ [r.name])

/-- `SmartFarmFlow.submit_reports` (main.py 266–336), abstracted over the
per-record write outcome and the human feedback text interpolated into
the returned string. -/
def submit_reports (st : SubmitSlots) (write : ReportSpec → Bool)
    (feedback : String) : SubmitOutcome :=
  let rs := reports_to_write st
  let (succ, failed) := submitLoop write rs [] []
  { successful_writes := succ
    failed_writes := failed
    message := "Submitted " ++ toString succ.length ++ "/" ++ toString rs.length
      ++ " reports. Approved by user: " ++ feedback }

/-- The fallback `combined_analysis` substituted by `initiate_crop_crew`
when `json.loads(crop_result.raw)` raises (main.py line 100). -/
def fallbackCombined : Json :=
  Json.obj [("weather_analysis", Json.obj []), ("sensor_analysis", Json.obj []),
    ("vision_analysis", Json.obj [])]

/-- Python `j.get(k, default)` — only dicts have `.get`. -/
def pyGetDefault (j : Json) (k : String) (d : Json) : Except String Json :=
  match j with
  | .obj fs => .ok ((jlookup fs k).getD d)
  | _ => .error "object has no attribute get"

/-- The slot-population logic of `SmartFarmFlow.initiate_crop_crew`
(main.py lines 93–105): `parsed` is the outcome of
`json.loads(crop_result.raw)`; the returned triple is the
`(vision_analysis, sensor_analysis, weather_analysis)` slot values. -/
def initiate_crop_crew_slots (parsed : Option Json) :
    Except String (String × String × String) := do
  let combined := match parsed with
    | none => fallbackCombined
    | some j => j
  let vision ← pyGetDefault combined "vision_analysis" (Json.obj [])
  let sensor ← pyGetDefault combined "sensor_analysis" (Json.obj [])
  let weather ← pyGetDefault combined "weather_analysis" (Json.obj [])
  return (Json.dumps vision, Json.dumps sensor, Json.dumps weather)

/-- The default structure substituted into the `compliance_analysis` slot
by `initiate_compliance_crew` on a JSON-decode failure (main.py 142–146). -/
def defaultComplianceSubstitute : Json :=
  Json.obj [
    ("compliance_analysis", Json.obj [
      ("summary", Json.str "Parse error"), ("topic", Json.str ""),
      ("date", Json.str ""), ("classification", Json.str "Neutral"),
      ("operational_impact", Json.str ""),
      ("nitrogen_emissions_relevance", Json.str ""),
      ("recommendations", Json.arr [])]),
    ("eu_ai_act_assessment", Json.obj [])]

/-- The slot-population logic of `SmartFarmFlow.initiate_compliance_crew`
(main.py lines 135–146): on a parse success the raw output is stored, on
`JSONDecodeError` the serialized default structure is stored. -/
def initiate_compliance_crew_slot (parsed : Option Json) (raw : String) : String :=
  match parsed with
  | some _ => raw
  | none => Json.dumps defaultComplianceSubstitute

/-! ## Result caches -/

/-- What reading and `json.loads`-ing a cache file yields: the file may be
absent, hold text that is not valid JSON (`json.loads` raises), or parse
to an entry whose `timestamp` / `result` keys may each be present or
missing. -/
inductive CacheRead where
  | missing
  | invalidJson
  | parsed (timestamp : Option ℚ) (result : Option String)

/-- `CACHE_TTL` of weather_api_tool.py (line 15): 30 minutes. -/
def weatherCacheTTL : ℚ := 1800

/-- `EU_AI_ACT_CACHE_TTL` of compliance_crew.py (line 65): 7 days. -/
def euAiActCacheTTL : ℚ := 7 * 24 * 3600

/-- `_get_cached` of weather_api_tool.py (lines 18–25). There is no
`try/except`: `json.loads` on corrupt text and `data["timestamp"]` on an
entry lacking the key both raise out of the function (`.error`); so does
`data["result"]` on a fresh entry lacking it. -/
def weather_get_cached (file : CacheRead) (now : ℚ) : Except String (Option String) :=
  match file with
  | .missing => .ok none
  | .invalidJson => .error "JSONDecodeError"
  | .parsed ts res =>
      match ts with
      | none => .error "KeyError: timestamp"
      | some t0 =>
          if now - t0 < weatherCacheTTL then
            match res with
            | none => .error "KeyError: result"
            | some r => .ok (some r)
          else .ok none

/-- `_get_cached_eu_ai_act` of compliance_crew.py (lines 68–78): the body
is wrapped in `try/except (JSONDecodeError, KeyError)`, a missing
`timestamp` defaults to `0` via `.get`, and every failure path falls
through to `return None`. -/
def eu_ai_act_get_cached (file : CacheRead) (now : ℚ) : Option String :=
  match file with
  | .missing => none
  | .invalidJson => none
  | .parsed ts res =>
      let t0 := ts.getD 0
      if now - t0 < euAiActCacheTTL then
        match res with
        | none => none
        | some r => some r
      else none

/-! ## Retry with exponential backoff (`tools/retry_utils.py`) -/

/-- Trace of one run of the `with_retry` wrapper: the final outcome (`.ok`
= returned value, `.error` = the re-raised exception), how many times the
wrapped function was invoked, and the sequence of back-off sleeps. -/
structure RetryTrace (E A : Type) where
  result : Except E A
  calls : ℕ
  sleeps : List ℚ

/-- The attempt loop of `with_retry` (retry_utils.py lines 14–30).
`f i` is the outcome of the wrapped function's `(i+1)`-th invocation;
`retriesLeft` counts the retries still allowed after the current attempt
(so the loop starts with `retriesLeft = max_retries`). On failure with
retries left it sleeps `min(base_delay * 2 ** attempt, max_delay)` and
tries again; on failure with none left the exception is re-raised. -/
def retryGo (f : ℕ → Except E A) (baseDelay maxDelay : ℚ) :
    (i : ℕ) → (retriesLeft : ℕ) → RetryTrace E A
  | i, retriesLeft =>
      match f i with
      | .ok a => ⟨.ok a, 1, []⟩
      | .error e =>
          match retriesLeft with
          | 0 => ⟨.error e, 1, []⟩
          | n + 1 =>
              let d := min (baseDelay * 2 ^ i) maxDelay
              let t := retryGo f baseDelay maxDelay (i + 1) n
              ⟨t.result, t.calls + 1, d :: t.sleeps⟩

/-- `with_retry(max_retries, base_delay, max_delay)` applied to a function
whose successive invocations have outcomes `f 0, f 1, ...`. -/
def with_retry (f : ℕ → Except E A) (max_retries : ℕ)
    (base_delay max_delay : ℚ) : RetryTrace E A :=
  retryGo f base_delay max_delay 0 max_retries

/-! ## S3 report writer key layout (`tools/s3_report_writer.py`) -/

/-- `valid_report_types` (s3_report_writer.py line 74). -/
def valid_report_types : List String :=
  ["vision_analysis", "weather_report", "sensor_analysis", "financial_analysis",
   "compliance_report", "master_report", "mission_plan", "realtime_monitoring",
   "image_analysis", "maintenance_prediction"]

/-- `drone_report_types` (s3_report_writer.py line 92). -/
def drone_report_types : List String :=
  ["mission_plan", "realtime_monitoring", "image_analysis", "maintenance_prediction"]

/-- The key construction of `S3ReportWriter._run` (s3_report_writer.py
lines 73–103): `currentDate` is `datetime.now().strftime("%Y-%m-%d")` and
`timestamp` is `datetime.now().strftime("%Y%m%d_%H%M%S")`, both taken at
write time; `none` models the invalid-report-type error return. The
result is the pair of the `.md` and `.json` object keys. -/
def s3_report_keys (farm_id report_type : String) (date : Option String)
    (currentDate timestamp : String) : Option (String × String) :=
  if report_type ∈ valid_report_types then
    let d := date.getD currentDate
    let base_path :=
      if report_type ∈ drone_report_types then
        farm_id ++ "/" ++ d ++ "/reports/drone"
      else
        farm_id ++ "/" ++ d ++ "/reports"
    some (base_path ++ "/" ++ (report_type ++ "_" ++ timestamp ++ ".md"),
          base_path ++ "/" ++ (report_type ++ "_" ++ timestamp ++ ".json"))
  else none

/-! ## Concrete payload families used to exercise the guardrails -/

/-- A weather payload that is well-formed and valid in every field except
that `disease_risk_level` is the parameter `v`. -/
def weatherEnumPayload (v : String) : Json :=
  Json.obj [("weather_analysis", Json.obj [
    ("summary", Json.str "ok"), ("location", Json.str "X"),
    ("date", Json.str "2024-01-01"),
    ("weather_data", Json.obj [("temperature_c", Json.num 20),
      ("feels_like_c", Json.num 19), ("condition", Json.str "Sunny"),
      ("humidity", Json.num 50), ("wind_kph", Json.num 10)]),
    ("air_quality", Json.obj [("aqi", Json.num 1), ("pm2_5", Json.num 1),
      ("pm10", Json.num 1), ("o3", Json.num 1), ("no2", Json.num 1),
      ("so2", Json.num 1), ("co", Json.num 1)]),
    ("agricultural_assessment", Json.obj [
      ("flight_clearance_status", Json.bool true),
      ("disease_risk_level", Json.str v),
      ("disease_risk_percentage", Json.num 5),
      ("nitrogen_volatilization_risk", Json.str "Low"),
      ("optimal_operations", Json.arr [])])])]

/-- A compliance payload, valid except that `classification` is `v`. -/
def complianceEnumPayload (v : String) : Json :=
  Json.obj [("compliance_analysis", Json.obj [
    ("summary", Json.str "s"), ("topic", Json.str "t"), ("date", Json.str "d"),
    ("classification", Json.str v),
    ("operational_impact", Json.str "o"),
    ("nitrogen_emissions_relevance", Json.str "n"),
    ("recommendations", Json.arr [])])]

/-- An EU AI Act payload parameterised by its two enumerated fields. -/
def euEnumPayload (riskLevel status : String) : Json :=
  Json.obj [("eu_ai_act_assessment", Json.obj [
    ("summary", Json.str "s"), ("system_classification", Json.str "c"),
    ("risk_level", Json.str riskLevel),
    ("transparency_obligations", Json.arr []),
    ("human_oversight_requirements", Json.arr []),
    ("data_governance_requirements", Json.arr []),
    ("documentation_requirements", Json.arr []),
    ("logging_requirements", Json.arr []),
    ("security_requirements", Json.arr []),
    ("compliance_gaps", Json.arr []),
    ("action_items", Json.arr []),
    ("overall_compliance_status", Json.str status)])]

/-- An image object carrying all four required fields. -/
def goodImage : Json :=
  Json.obj [("key", Json.str "k"), ("content_type", Json.str "image/jpeg"),
    ("s3_uri", Json.str "s3://b/k"), ("presigned_url", Json.str "https://u")]

/-- An image-retriever payload with exactly two well-formed images and
`num_images_found` equal to the integer `m`. -/
def imageCountPayload (m : ℕ) : Json :=
  Json.obj [("bucket_name", Json.str "b"), ("num_images_found", Json.num m),
    ("region", Json.str "eu-west-1"), ("images", Json.arr [goodImage, goodImage])]

/-! ## The six remaining guardrail validators -/

/-- The `for idx, entry in enumerate(...)` loops of the sensor and finance
guardrails over lists of required-field dicts (crop_crew.py 255–275,
finance_crew.py 196–202): each entry must be a dict carrying every
required field; `arrName` is the field name interpolated into the
messages. Membership is only tested after the dict check, so the loop
cannot raise. -/
def dictsLoop (arrName : String) (reqFields : List String) :
    ℕ → List Json → Option Verdict
  | _, [] => none
  | idx, j :: rest =>
      match j with
      | Json.obj fs =>
          let missing := reqFields.filter (fun f => !(hasKey fs f))
          if !missing.isEmpty then
            some (false, arrName ++ "[" ++ toString idx ++ "] is missing fields: "
              ++ String.intercalate ", " missing ++ ".")
          else dictsLoop arrName reqFields (idx + 1) rest
      | _ => some (false, arrName ++ "[" ++ toString idx ++ "] must be an object.")

/-- Body of `CropCrew.validate_sensor_analysis_output` after a successful
`json.loads` (crop_crew.py lines 221–285). -/
def validate_sensor_body (data : Json) (raw : String) : Except String Verdict := do
  let missing ← missingIn data ["sensor_analysis"]
  if !missing.isEmpty then
    return (false, "Missing required fields: " ++ String.intercalate ", " missing
      ++ ". Please ensure all fields are included.")
  match (← pyGet data "sensor_analysis") with
  | some (Json.obj sa) => do
    let requiredAnalysisFields := ["summary", "farm_id", "readings_count", "analysis_period",
      "zones_analyzed", "soil_health_metrics", "irrigation_recommendations",
      "environmental_correlations", "alerts"]
    let missingA := requiredAnalysisFields.filter (fun f => !(hasKey sa f))
    if !missingA.isEmpty then
      return (false, "sensor_analysis is missing fields: " ++ String.intercalate ", " missingA
        ++ ". Please ensure all fields are included.")
    match jlookup sa "zones_analyzed" with
    | some (Json.arr _) => do
      match jlookup sa "soil_health_metrics" with
      | some (Json.arr metrics) => do
        if metrics.length = 0 then
          return (false, "soil_health_metrics must contain at least one zone analysis.")
        match dictsLoop "soil_health_metrics"
            ["zone_name", "average_moisture", "average_temperature", "average_ph", "status"]
            0 metrics with
        | some verdict => return verdict
        | none => do
          match jlookup sa "irrigation_recommendations" with
          | some (Json.arr recs) => do
            match dictsLoop "irrigation_recommendations"
                ["zone", "action", "priority", "reasoning"] 0 recs with
            | some verdict => return verdict
            | none => do
              match jlookup sa "environmental_correlations" with
              | some (Json.arr _) => do
                match jlookup sa "alerts" with
                | some (Json.arr _) => return (true, raw)
                | _ => return (false, "The 'alerts' field must be an array of strings.")
              | _ => return (false,
                  "The 'environmental_correlations' field must be an array of strings.")
          | _ => return (false, "The 'irrigation_recommendations' field must be an array.")
      | _ => return (false,
          "The 'soil_health_metrics' field must be an array of soil health objects.")
    | _ => return (false, "The 'zones_analyzed' field must be an array of zone names.")
  | _ => return (false, "The 'sensor_analysis' field must be an object.")

/-- `CropCrew.validate_sensor_analysis_output` (crop_crew.py 208–290). -/
def validate_sensor_analysis_output (parsed : Option Json) (raw : String) : Verdict :=
  match parsed with
  | none => (false, jsonInvalidMsg)
  | some data =>
      match validate_sensor_body data raw with
      | .ok v => v
      | .error e => (false, validationErrorMsg e)

/-- The `for field in required_fields` loop of
`CropCrew.validate_combined_output` (crop_crew.py 362–364): each named
section is indexed with `data[field]` (which can raise on a non-dict
payload) and must be an object. -/
def sectionsCheck (data : Json) : List String → Except String (Option Verdict)
  | [] => .ok none
  | f :: fs =>
      match pyIndex data f with
      | .error e => .error e
      | .ok (Json.obj _) => sectionsCheck data fs
      | .ok _ => .ok (some (false, "The '" ++ f ++ "' field must be an object."))

/-- Body of `CropCrew.validate_combined_output` after a successful
`json.loads` (crop_crew.py lines 352–366). -/
def validate_combined_body (data : Json) (raw : String) : Except String Verdict := do
  let missing ← missingIn data ["weather_analysis", "sensor_analysis", "vision_analysis"]
  if !missing.isEmpty then
    return (false, "Missing required fields: " ++ String.intercalate ", " missing
      ++ ". Please ensure all analysis sections are included.")
  match (← sectionsCheck data ["weather_analysis", "sensor_analysis", "vision_analysis"]) with
  | some verdict => return verdict
  | none => return (true, raw)

/-- `CropCrew.validate_combined_output` (crop_crew.py 339–371). -/
def validate_combined_output (parsed : Option Json) (raw : String) : Verdict :=
  match parsed with
  | none => (false, jsonInvalidMsg)
  | some data =>
      match validate_combined_body data raw with
      | .ok v => v
      | .error e => (false, validationErrorMsg e)

/-- `VisionCrew.validate_image_retriever_output` (vision_crew.py 39–84):
textually identical to `CropCrew.validate_image_retriever_output`
(checks, messages and exception handling line for line), so it is the
same embedded function. -/
def vision_validate_image_retriever_output (parsed : Option Json) (raw : String) : Verdict :=
  validate_image_retriever_output parsed raw

/-- The `for field in [...]` loop of
`ComplianceCrew.validate_combined_compliance_output` (compliance_crew.py
249–253): key presence (`field not in data`, which can raise) and then a
dict check per field, with this validator's own shorter messages. -/
def combinedComplianceLoop (data : Json) : List String → Except String (Option Verdict)
  | [] => .ok none
  | f :: fs =>
      match pyIn f data with
      | .error e => .error e
      | .ok b =>
          if !b then .ok (some (false, "Missing required field: '" ++ f ++ "'."))
          else
            match pyIndex data f with
            | .error e => .error e
            | .ok (Json.obj _) => combinedComplianceLoop data fs
            | .ok _ => .ok (some (false, "'" ++ f ++ "' must be an object."))

/-- Body of `ComplianceCrew.validate_combined_compliance_output` after a
successful `json.loads` (compliance_crew.py lines 248–254). -/
def validate_combined_compliance_body (data : Json) (raw : String) :
    Except String Verdict := do
  match (← combinedComplianceLoop data ["compliance_analysis", "eu_ai_act_assessment"]) with
  | some verdict => return verdict
  | none => return (true, raw)

/-- `ComplianceCrew.validate_combined_compliance_output` (compliance_crew.py
245–258). Its two handlers use shorter messages than the other
guardrails: `"Output is not valid JSON."` and `"Validation error: {e}"`
with no trailing instruction. -/
def validate_combined_compliance_output (parsed : Option Json) (raw : String) : Verdict :=
  match parsed with
  | none => (false, "Output is not valid JSON.")
  | some data =>
      match validate_combined_compliance_body data raw with
      | .ok v => v
      | .error e => (false, "Validation error: " ++ e)

/-- Body of `CoreCrew.validate_master_report_output` after a successful
`json.loads` (core_crew.py lines 58–92). -/
def validate_master_body (data : Json) (raw : String) : Except String Verdict := do
  let missing ← missingIn data ["master_analysis"]
  if !missing.isEmpty then
    return (false, "Missing required fields: " ++ String.intercalate ", " missing
      ++ ". Please ensure all fields are included.")
  match (← pyGet data "master_analysis") with
  | some (Json.obj ma) => do
    let requiredAnalysisFields := ["executive_summary", "critical_alerts", "vision_summary",
      "weather_summary", "sensor_summary", "compliance_summary",
      "cross_functional_insights", "strategic_recommendations",
      "operational_priorities", "overall_farm_status"]
    let missingA := requiredAnalysisFields.filter (fun f => !(hasKey ma f))
    if !missingA.isEmpty then
      return (false, "master_analysis is missing fields: " ++ String.intercalate ", " missingA
        ++ ". Please ensure all fields are included.")
    let listFields := ["critical_alerts", "cross_functional_insights",
      "strategic_recommendations", "operational_priorities"]
    match listFields.find? (fun f =>
        match jlookup ma f with
        | some (Json.arr _) => false
        | _ => true) with
    | some f => return (false, "The '" ++ f ++ "' field must be an array of strings.")
    | none => do
      let validStatuses := ["Excellent", "Good", "Attention Needed", "Critical"]
      if !(pyStrMem ((jlookup ma "overall_farm_status").getD Json.null) validStatuses) then
        return (false, "overall_farm_status must be one of: "
          ++ String.intercalate ", " validStatuses ++ ".")
      return (true, raw)
  | _ => return (false, "The 'master_analysis' field must be an object.")

/-- `CoreCrew.validate_master_report_output` (core_crew.py 45–97). -/
def validate_master_report_output (parsed : Option Json) (raw : String) : Verdict :=
  match parsed with
  | none => (false, jsonInvalidMsg)
  | some data =>
      match validate_master_body data raw with
      | .ok v => v
      | .error e => (false, validationErrorMsg e)

/-- Body of `FinanceCrew.validate_financial_analysis_output` after a
successful `json.loads` (finance_crew.py lines 137–229). -/
def validate_financial_body (data : Json) (raw : String) : Except String Verdict := do
  let missing ← missingIn data ["financial_analysis"]
  if !missing.isEmpty then
    return (false, "Missing required fields: " ++ String.intercalate ", " missing
      ++ ". Please ensure all fields are included.")
  match (← pyGet data "financial_analysis") with
  | some (Json.obj fa) => do
    let requiredAnalysisFields := ["summary", "farm_id", "analysis_period",
      "total_days_analyzed", "financial_overview", "revenue_analysis", "expense_analysis",
      "operational_analysis", "roi_by_zone", "cash_flow_analysis",
      "forecasts", "recommendations", "alerts"]
    let missingA := requiredAnalysisFields.filter (fun f => !(hasKey fa f))
    if !missingA.isEmpty then
      return (false, "financial_analysis is missing fields: "
        ++ String.intercalate ", " missingA ++ ". Please ensure all fields are included.")
    let requiredOverviewFields := ["total_revenue", "total_expenses",
      "total_operational_costs", "net_profit", "profit_margin_percentage"]
    match jlookup fa "financial_overview" with
    | some (Json.obj fo) => do
      let missingO := requiredOverviewFields.filter (fun f => !(hasKey fo f))
      if !missingO.isEmpty then
        return (false, "financial_overview is missing fields: "
          ++ String.intercalate ", " missingO ++ ".")
      match jlookup fa "revenue_analysis" with
      | some (Json.obj ra) => do
        match jlookup ra "revenue_by_type" with
        | some (Json.arr _) => do
          match jlookup fa "expense_analysis" with
          | some (Json.obj ea) => do
            match jlookup ea "expense_by_category" with
            | some (Json.arr _) => do
              match jlookup fa "operational_analysis" with
              | some (Json.obj oa) => do
                match jlookup oa "operations_by_type" with
                | some (Json.arr _) => do
                  match jlookup fa "roi_by_zone" with
                  | some (Json.arr rois) => do
                    match dictsLoop "roi_by_zone"
                        ["zone", "revenue", "costs", "roi_percentage", "status"] 0 rois with
                    | some verdict => return verdict
                    | none => do
                      let requiredCashFlowFields := ["cash_inflow", "cash_outflow",
                        "net_cash_flow", "cash_flow_status"]
                      match jlookup fa "cash_flow_analysis" with
                      | some (Json.obj cf) => do
                        let missingC := requiredCashFlowFields.filter (fun f => !(hasKey cf f))
                        if !missingC.isEmpty then
                          return (false, "cash_flow_analysis is missing fields: "
                            ++ String.intercalate ", " missingC ++ ".")
                        let requiredForecastFields := ["projected_monthly_revenue",
                          "projected_monthly_expenses", "projected_monthly_profit"]
                        match jlookup fa "forecasts" with
                        | some (Json.obj fc) => do
                          let missingF := requiredForecastFields.filter
                            (fun f => !(hasKey fc f))
                          if !missingF.isEmpty then
                            return (false, "forecasts is missing fields: "
                              ++ String.intercalate ", " missingF ++ ".")
                          match jlookup fa "recommendations" with
                          | some (Json.arr _) => do
                            match jlookup fa "alerts" with
                            | some (Json.arr _) => return (true, raw)
                            | _ => return (false,
                                "The 'alerts' field must be an array of strings.")
                          | _ => return (false,
                              "The 'recommendations' field must be an array of strings.")
                        | _ => return (false, "The 'forecasts' field must be an object.")
                      | _ => return (false,
                          "The 'cash_flow_analysis' field must be an object.")
                  | _ => return (false, "The 'roi_by_zone' field must be an array.")
                | _ => return (false,
                    "operational_analysis.operations_by_type must be an array.")
              | _ => return (false, "The 'operational_analysis' field must be an object.")
            | _ => return (false, "expense_analysis.expense_by_category must be an array.")
          | _ => return (false, "The 'expense_analysis' field must be an object.")
        | _ => return (false, "revenue_analysis.revenue_by_type must be an array.")
      | _ => return (false, "The 'revenue_analysis' field must be an object.")
    | _ => return (false, "The 'financial_overview' field must be an object.")
  | _ => return (false, "The 'financial_analysis' field must be an object.")

/-- `FinanceCrew.validate_financial_analysis_output` (finance_crew.py
124–234). -/
def validate_financial_analysis_output (parsed : Option Json) (raw : String) : Verdict :=
  match parsed with
  | none => (false, jsonInvalidMsg)
  | some data =>
      match validate_financial_body data raw with
      | .ok v => v
      | .error e => (false, validationErrorMsg e)

/-! ## Theorems -/

/-- C1 counterexample: with the `weather_analysis` slot equal to the
empty-JSON sentinel and the three other upstream slots non-empty, the
checkpoint decision is "yes", not the "no" the claim requires — the guard
does not consult `weather_analysis`. -/
theorem c1_weather_slot_not_guarded :
    decision_guard ⟨"{}", "a", "b", "c"⟩ = "yes"
    ∧ decision_guard ⟨"{}", "a", "b", "c"⟩ ≠ "no" := by
  constructor
  · rfl
  · decide

/-- C1 (amended): the completeness guard forces "no" exactly when one of
the `vision_analysis`, `sensor_analysis`, `compliance_analysis` slots is
`""` or `"{}"` (the `weather_analysis` slot is not consulted), and
answers "yes" otherwise, regardless of any external human signal. -/
theorem c1_completeness_guard_amended (s : RunSlots) :
    decision_guard s =
      if s.vision_analysis = "" ∨ s.vision_analysis = "{}"
          ∨ s.sensor_analysis = "" ∨ s.sensor_analysis = "{}"
          ∨ s.compliance_analysis = "" ∨ s.compliance_analysis = "{}"
      then "no" else "yes" := by
  by_cases h1 : s.vision_analysis = "" <;>
  by_cases h2 : s.vision_analysis = "{}" <;>
  by_cases h3 : s.sensor_analysis = "" <;>
  by_cases h4 : s.sensor_analysis = "{}" <;>
  by_cases h5 : s.compliance_analysis = "" <;>
  by_cases h6 : s.compliance_analysis = "{}" <;>
  simp [decision_guard, List.find?, h1, h2, h3, h4, h5, h6]

/-- C5: a well-formed cache entry written at `t0` is returned unchanged by
a read at `now` exactly when `now - t0 < TTL` and is reported absent when
`now - t0 ≥ TTL`, with TTL = 1800 s for the weather-location cache and
7·24·3600 = 604800 s for the EU AI Act assessment cache. -/
theorem c5_cache_ttl_boundary (t0 now : ℚ) (r : String) :
    (now - t0 < 1800 →
      weather_get_cached (.parsed (some t0) (some r)) now = .ok (some r))
    ∧ (1800 ≤ now - t0 →
      weather_get_cached (.parsed (some t0) (some r)) now = .ok none)
    ∧ (now - t0 < 604800 →
      eu_ai_act_get_cached (.parsed (some t0) (some r)) now = some r)
    ∧ (604800 ≤ now - t0 →
      eu_ai_act_get_cached (.parsed (some t0) (some r)) now = none) := by
  refine ⟨fun h => ?_, fun h => ?_, fun h => ?_, fun h => ?_⟩ <;>
    simp only [weather_get_cached, eu_ai_act_get_cached, weatherCacheTTL,
      euAiActCacheTTL, Option.getD]
  · rw [if_pos h]
  · rw [if_neg (by linarith)]
  · rw [if_pos (by linarith)]
  · rw [if_neg (by linarith)]

/-- C5 witness: concrete reads on both sides of both TTL boundaries. -/
theorem c5_cache_ttl_boundary_witness :
    weather_get_cached (.parsed (some 0) (some "p")) 1799 = .ok (some "p")
    ∧ weather_get_cached (.parsed (some 0) (some "p")) 1800 = .ok none
    ∧ eu_ai_act_get_cached (.parsed (some 0) (some "p")) 604799 = some "p"
    ∧ eu_ai_act_get_cached (.parsed (some 0) (some "p")) 604800 = none :=
  ⟨(c5_cache_ttl_boundary 0 1799 "p").1 (by norm_num),
   (c5_cache_ttl_boundary 0 1800 "p").2.1 (by norm_num),
   (c5_cache_ttl_boundary 0 604799 "p").2.2.1 (by norm_num),
   (c5_cache_ttl_boundary 0 604800 "p").2.2.2 (by norm_num)⟩

/-- C6 counterexample: the weather cache reader does not treat a corrupt
entry as a miss — on a cache file whose text is not valid JSON it
propagates the `json.loads` exception instead of returning `None`. -/
theorem c6_weather_reader_raises :
    weather_get_cached CacheRead.invalidJson 0 = .error "JSONDecodeError" := rfl

/-- C6 (amended): the EU AI Act cache reader returns `None` (a miss) and
never raises for a missing file, invalid JSON, a missing `result` key, or
a missing `timestamp` key (which defaults to 0 and so is stale whenever
`now ≥ TTL`); the weather cache reader returns `None` for a missing file
but propagates an exception on invalid JSON, on a missing `timestamp`
key, and on a fresh entry missing the `result` key. -/
theorem c6_corrupt_cache_amended (now : ℚ) (ts : Option ℚ) (r : String) :
    eu_ai_act_get_cached .missing now = none
    ∧ eu_ai_act_get_cached .invalidJson now = none
    ∧ eu_ai_act_get_cached (.parsed ts none) now = none
    ∧ (604800 ≤ now → eu_ai_act_get_cached (.parsed none (some r)) now = none)
    ∧ weather_get_cached .missing now = .ok none
    ∧ weather_get_cached .invalidJson now = .error "JSONDecodeError"
    ∧ weather_get_cached (.parsed none (some r)) now = .error "KeyError: timestamp"
    ∧ (now - 0 < 1800 →
        weather_get_cached (.parsed (some 0) none) now = .error "KeyError: result") := by
  refine ⟨rfl, rfl, ?_, fun h => ?_, rfl, rfl, rfl, fun h => ?_⟩
  · simp only [eu_ai_act_get_cached]
    split <;> rfl
  · simp only [eu_ai_act_get_cached, Option.getD, euAiActCacheTTL]
    rw [if_neg (by linarith)]
  · simp only [weather_get_cached, weatherCacheTTL]
    rw [if_pos (by linarith)]

/-- C6 witness: the amended facts at concrete instants. -/
theorem c6_corrupt_cache_amended_witness :
    eu_ai_act_get_cached (.parsed (some 5) none) 10 = none
    ∧ eu_ai_act_get_cached (.parsed none (some "p")) 604800 = none
    ∧ weather_get_cached (.parsed (some 0) none) 10 = .error "KeyError: result" :=
  ⟨(c6_corrupt_cache_amended 10 (some 5) "p").2.2.1,
   (c6_corrupt_cache_amended 604800 none "p").2.2.2.1 (by norm_num),
   (c6_corrupt_cache_amended 10 (some 0) "p").2.2.2.2.2.2.2 (by norm_num)⟩

/-- C8: on a JSON-decode failure of a stage's raw output the orchestrator
substitutes empty structured placeholders and proceeds: the crop stage
stores `"{}"` into each of the vision, sensor and weather slots (raising
nothing), and the compliance stage stores the serialized default
compliance structure. -/
theorem c8_parse_failure_substitution :
    initiate_crop_crew_slots none = .ok ("{}", "{}", "{}")
    ∧ (∀ raw, initiate_compliance_crew_slot none raw
        = Json.dumps defaultComplianceSubstitute)
    ∧ (∃ fs, defaultComplianceSubstitute = Json.obj fs
        ∧ hasKey fs "compliance_analysis" = true
        ∧ hasKey fs "eu_ai_act_assessment" = true) := by
  refine ⟨rfl, fun raw => rfl, ?_⟩
  exact ⟨_, rfl, rfl, rfl⟩

/-- Helper: the accumulation loop of `submit_reports` partitions the
record list by each record's own write outcome. -/
theorem submitLoop_spec (write : ReportSpec → Bool) (rs : List ReportSpec)
    (succ failed : List String) :
    submitLoop write rs succ failed =
      (succ ++ (rs.filter (fun r => write r)).map (fun r => r.name),
       failed ++ (rs.filter (fun r => !(write r))).map (fun r => r.name)) := by
  induction rs generalizing succ failed with
  | nil => simp [submitLoop]
  | cons r rest ih =>
      cases hw : write r <;>
        simp [submitLoop, hw, ih, List.filter_cons]

/-- Helper: filtering by a predicate and by its negation partitions a
list's length. -/
theorem filter_partition_length {α : Type} (p : α → Bool) (l : List α) :
    (l.filter p).length + (l.filter (fun x => !(p x))).length = l.length := by
  induction l with
  | nil => rfl
  | cons x xs ih =>
      cases hp : p x <;> simp [List.filter_cons, hp, ← ih] <;> omega

/-- C2: `submit_reports` attempts a write for each of the 5 records
independently of earlier failures — the tallies are exactly the records
partitioned by their own write outcome, every record lands in one tally,
and the returned summary reports `successful_count` out of 5. -/
theorem c2_submit_partial_write_tolerance (st : SubmitSlots)
    (write : ReportSpec → Bool) (feedback : String) :
    (submit_reports st write feedback).successful_writes
        = ((reports_to_write st).filter (fun r => write r)).map (fun r => r.name)
    ∧ (submit_reports st write feedback).failed_writes
        = ((reports_to_write st).filter (fun r => !(write r))).map (fun r => r.name)
    ∧ (submit_reports st write feedback).successful_writes.length
        + (submit_reports st write feedback).failed_writes.length = 5
    ∧ (submit_reports st write feedback).message
        = "Submitted "
          ++ toString ((reports_to_write st).filter (fun r => write r)).length
          ++ "/" ++ toString (reports_to_write st).length
          ++ " reports. Approved by user: " ++ feedback
    ∧ (reports_to_write st).length = 5 := by
  have hloop := submitLoop_spec write (reports_to_write st) [] []
  refine ⟨?_, ?_, ?_, ?_, rfl⟩
  · simp [submit_reports, hloop]
  · simp [submit_reports, hloop]
  · simp only [submit_reports, hloop, List.nil_append, List.length_map]
    rw [filter_partition_length]
    rfl
  · simp [submit_reports, hloop]

/-- C3: every guardrail validator in the repository (weather, sensor,
image-retriever and combined from the crop crew, the vision crew's
image-retriever, compliance, EU AI Act and combined from the compliance
crew, the core crew's master report, and the finance crew's financial
analysis) rejects non-JSON raw output with its JSON-specific reason
(never a field-specific one), and converts any exception raised inside
its body into a rejection verdict carrying the exception message —
validation never raises. The combined-compliance guardrail uses its own
shorter message texts for both cases. -/
theorem c3_invalid_json_and_exception_conversion :
    (∀ raw, validate_weather_report_output none raw = (false, jsonInvalidMsg))
    ∧ (∀ raw, validate_sensor_analysis_output none raw = (false, jsonInvalidMsg))
    ∧ (∀ raw, validate_image_retriever_output none raw = (false, jsonInvalidMsg))
    ∧ (∀ raw, validate_combined_output none raw = (false, jsonInvalidMsg))
    ∧ (∀ raw, vision_validate_image_retriever_output none raw = (false, jsonInvalidMsg))
    ∧ (∀ raw, validate_compliance_output none raw = (false, jsonInvalidMsg))
    ∧ (∀ raw, validate_eu_ai_act_output none raw = (false, jsonInvalidMsg))
    ∧ (∀ raw, validate_combined_compliance_output none raw
        = (false, "Output is not valid JSON."))
    ∧ (∀ raw, validate_master_report_output none raw = (false, jsonInvalidMsg))
    ∧ (∀ raw, validate_financial_analysis_output none raw = (false, jsonInvalidMsg))
    ∧ jsonInvalidMsg
        = "Output is not valid JSON. Please return a properly formatted JSON string."
    ∧ (∀ data raw e, validate_weather_body data raw = .error e →
        validate_weather_report_output (some data) raw = (false, validationErrorMsg e))
    ∧ (∀ data raw e, validate_sensor_body data raw = .error e →
        validate_sensor_analysis_output (some data) raw = (false, validationErrorMsg e))
    ∧ (∀ data raw e, validate_image_retriever_body data raw = .error e →
        validate_image_retriever_output (some data) raw = (false, validationErrorMsg e))
    ∧ (∀ data raw e, validate_combined_body data raw = .error e →
        validate_combined_output (some data) raw = (false, validationErrorMsg e))
    ∧ (∀ data raw e, validate_image_retriever_body data raw = .error e →
        vision_validate_image_retriever_output (some data) raw
          = (false, validationErrorMsg e))
    ∧ (∀ data raw e, validate_compliance_body data raw = .error e →
        validate_compliance_output (some data) raw = (false, validationErrorMsg e))
    ∧ (∀ data raw e, validate_eu_ai_act_body data raw = .error e →
        validate_eu_ai_act_output (some data) raw = (false, validationErrorMsg e))
    ∧ (∀ data raw e, validate_combined_compliance_body data raw = .error e →
        validate_combined_compliance_output (some data) raw
          = (false, "Validation error: " ++ e))
    ∧ (∀ data raw e, validate_master_body data raw = .error e →
        validate_master_report_output (some data) raw = (false, validationErrorMsg e))
    ∧ (∀ data raw e, validate_financial_body data raw = .error e →
        validate_financial_analysis_output (some data) raw
          = (false, validationErrorMsg e)) := by
  refine ⟨fun _ => rfl, fun _ => rfl, fun _ => rfl, fun _ => rfl, fun _ => rfl,
    fun _ => rfl, fun _ => rfl, fun _ => rfl, fun _ => rfl, fun _ => rfl, rfl,
    fun data raw e h => ?_, fun data raw e h => ?_, fun data raw e h => ?_,
    fun data raw e h => ?_, fun data raw e h => ?_, fun data raw e h => ?_,
    fun data raw e h => ?_, fun data raw e h => ?_, fun data raw e h => ?_,
    fun data raw e h => ?_⟩ <;>
    simp [validate_weather_report_output, validate_sensor_analysis_output,
      validate_image_retriever_output, validate_combined_output,
      vision_validate_image_retriever_output, validate_compliance_output,
      validate_eu_ai_act_output, validate_combined_compliance_output,
      validate_master_report_output, validate_financial_analysis_output, h]

/-- C3 witness: a payload whose top level is the number `0` makes every
validator body raise a `TypeError` at the membership test, and each of
the ten validators converts it into its rejection verdict. -/
theorem c3_invalid_json_witness :
    validate_weather_report_output (some (Json.num 0)) "x"
        = (false, validationErrorMsg "argument of type is not iterable")
    ∧ validate_sensor_analysis_output (some (Json.num 0)) "x"
        = (false, validationErrorMsg "argument of type is not iterable")
    ∧ validate_image_retriever_output (some (Json.num 0)) "x"
        = (false, validationErrorMsg "argument of type is not iterable")
    ∧ validate_combined_output (some (Json.num 0)) "x"
        = (false, validationErrorMsg "argument of type is not iterable")
    ∧ vision_validate_image_retriever_output (some (Json.num 0)) "x"
        = (false, validationErrorMsg "argument of type is not iterable")
    ∧ validate_compliance_output (some (Json.num 0)) "x"
        = (false, validationErrorMsg "argument of type is not iterable")
    ∧ validate_eu_ai_act_output (some (Json.num 0)) "x"
        = (false, validationErrorMsg "argument of type is not iterable")
    ∧ validate_combined_compliance_output (some (Json.num 0)) "x"
        = (false, "Validation error: " ++ "argument of type is not iterable")
    ∧ validate_master_report_output (some (Json.num 0)) "x"
        = (false, validationErrorMsg "argument of type is not iterable")
    ∧ validate_financial_analysis_output (some (Json.num 0)) "x"
        = (false, validationErrorMsg "argument of type is not iterable") := by
  obtain ⟨-, -, -, -, -, -, -, -, -, -, -, h1, h2, h3, h4, h5, h6, h7, h8, h9, h10⟩ :=
    c3_invalid_json_and_exception_conversion
  exact ⟨h1 (Json.num 0) "x" _ rfl, h2 (Json.num 0) "x" _ rfl,
    h3 (Json.num 0) "x" _ rfl, h4 (Json.num 0) "x" _ rfl,
    h5 (Json.num 0) "x" _ rfl, h6 (Json.num 0) "x" _ rfl,
    h7 (Json.num 0) "x" _ rfl, h8 (Json.num 0) "x" _ rfl,
    h9 (Json.num 0) "x" _ rfl, h10 (Json.num 0) "x" _ rfl⟩

/-- Helper: shifting the attempt index by one prepends the first sleep. -/
theorem sleeps_shift (b m : ℚ) (i n : ℕ) :
    min (b * 2 ^ i) m :: (List.range n).map (fun j => min (b * 2 ^ (i + 1 + j)) m)
      = (List.range (n + 1)).map (fun j => min (b * 2 ^ (i + j)) m) := by
  rw [List.range_succ_eq_map, List.map_cons, List.map_map]
  congr 1
  refine List.map_congr_left (fun j _ => ?_)
  simp only [Function.comp_apply]
  rw [show i + 1 + j = i + (j + 1) by omega]

/-- Helper: when every attempt from index `i` through `i + n` fails, the
retry loop makes `n + 1` calls, sleeps the capped exponential delays, and
ends with the final attempt's exception. -/
theorem retryGo_all_fail {E A : Type} (f : ℕ → Except E A) (b m : ℚ) (n : ℕ) :
    ∀ i, (∀ j, j ≤ n → (f (i + j)).isOk = false) →
    retryGo f b m i n =
      ⟨f (i + n), n + 1, (List.range n).map (fun j => min (b * 2 ^ (i + j)) m)⟩ := by
  induction n with
  | zero =>
      intro i h
      have h0 := h 0 (Nat.le_refl 0)
      cases hf : f i with
      | ok a =>
          rw [show i + 0 = i from rfl, hf] at h0
          simp [Except.isOk, Except.toBool] at h0
      | error e => simp [retryGo, hf]
  | succ n ih =>
      intro i h
      have h0 := h 0 (Nat.zero_le _)
      cases hf : f i with
      | ok a =>
          rw [show i + 0 = i from rfl, hf] at h0
          simp [Except.isOk, Except.toBool] at h0
      | error e =>
          have ih' := ih (i + 1) (fun j hj => by
            have hx := h (j + 1) (Nat.succ_le_succ hj)
            rwa [show i + (j + 1) = i + 1 + j by omega] at hx)
          simp only [retryGo, hf, ih']
          rw [show i + 1 + n = i + (n + 1) by omega, sleeps_shift]

/-- Helper: when the attempts at indices `i, …, i + k - 1` fail and the
attempt at `i + k` succeeds with `a`, the loop returns `a` after exactly
`k + 1` calls and `k` sleeps. -/
theorem retryGo_success {E A : Type} (f : ℕ → Except E A) (b m : ℚ) (k : ℕ) :
    ∀ i n a, (∀ j, j < k → (f (i + j)).isOk = false) → f (i + k) = .ok a →
      k ≤ n →
    retryGo f b m i n =
      ⟨.ok a, k + 1, (List.range k).map (fun j => min (b * 2 ^ (i + j)) m)⟩ := by
  induction k with
  | zero =>
      intro i n a _ hk _
      rw [show i + 0 = i from rfl] at hk
      simp [retryGo, hk]
  | succ k ih =>
      intro i n a h hk hn
      have h0 := h 0 (Nat.succ_pos k)
      cases hf : f i with
      | ok a0 =>
          rw [show i + 0 = i from rfl, hf] at h0
          simp [Except.isOk, Except.toBool] at h0
      | error e =>
          obtain ⟨n', rfl⟩ : ∃ n', n = n' + 1 :=
            ⟨n - 1, by omega⟩
          have ih' := ih (i + 1) n' a
            (fun j hj => by
              have hx := h (j + 1) (Nat.succ_lt_succ hj)
              rwa [show i + (j + 1) = i + 1 + j by omega] at hx)
            (by rwa [show i + 1 + k = i + (k + 1) by omega])
            (by omega)
          simp only [retryGo, hf, ih']
          rw [sleeps_shift]

/-- C7: if every attempt fails, `with_retry` invokes the wrapped function
exactly `max_retries + 1` times, sleeping `min(base_delay · 2^i,
max_delay)` after each failed attempt `i < max_retries`, and re-raises
the final attempt's exception; if attempt `k` is the first success, its
value is returned after exactly `k + 1` invocations. -/
theorem c7_retry_exponential_backoff {E A : Type} (f : ℕ → Except E A)
    (max_retries : ℕ) (base_delay max_delay : ℚ) :
    ((∀ i, i ≤ max_retries → (f i).isOk = false) →
      with_retry f max_retries base_delay max_delay =
        ⟨f max_retries, max_retries + 1,
         (List.range max_retries).map (fun i => min (base_delay * 2 ^ i) max_delay)⟩)
    ∧ (∀ k a, (∀ j, j < k → (f j).isOk = false) → f k = .ok a →
        k ≤ max_retries →
      with_retry f max_retries base_delay max_delay =
        ⟨.ok a, k + 1,
         (List.range k).map (fun i => min (base_delay * 2 ^ i) max_delay)⟩) := by
  constructor
  · intro h
    have := retryGo_all_fail f base_delay max_delay max_retries 0
      (fun j hj => by simpa using h j hj)
    simpa [with_retry] using this
  · intro k a h hk hkm
    have := retryGo_success f base_delay max_delay k 0 max_retries a
      (fun j hj => by simpa using h j hj) (by simpa using hk) hkm
    simpa [with_retry] using this

/-- C7 witness: an always-failing function with `max_retries = 2` is
called 3 times with sleeps `[1, 2]` and re-raises; a function succeeding
on its second call returns immediately after 2 calls and one sleep. -/
theorem c7_retry_exponential_backoff_witness :
    with_retry (fun _ => (.error "x" : Except String ℕ)) 2 1 30
      = ⟨.error "x", 3, [1, 2]⟩
    ∧ with_retry (fun i => if i = 0 then (.error "boom" : Except String ℕ) else .ok 42)
        2 1 30 = ⟨.ok 42, 2, [1]⟩ := by
  constructor
  · have h := (c7_retry_exponential_backoff
        (fun _ => (.error "x" : Except String ℕ)) 2 1 30).1 (fun _ _ => rfl)
    rw [h]
    norm_num [List.range_succ]
  · have h := (c7_retry_exponential_backoff
        (fun i => if i = 0 then (.error "boom" : Except String ℕ) else .ok 42)
        2 1 30).2 1 42
      (fun j hj => by
        have : j = 0 := by omega
        subst this; rfl)
      rfl (by norm_num)
    rw [h]
    norm_num [List.range_succ]

/-- C9: for every valid report type the writer's object keys are
`farm_id/date/reports/[drone/]report_type_timestamp.md` and `.json`, the
`drone/` segment appearing exactly for the four drone report types; a
missing caller-supplied date defaults to the current (write-time) date
while the filename timestamp is always the write-time timestamp. -/
theorem c9_report_write_keys (farm timestamp currentDate : String)
    (date : Option String) (rt : String) (h : rt ∈ valid_report_types) :
    s3_report_keys farm rt date currentDate timestamp =
      some (farm ++ "/" ++ date.getD currentDate ++ "/reports/"
              ++ (if rt ∈ drone_report_types then "drone/" else "")
              ++ rt ++ "_" ++ timestamp ++ ".md",
            farm ++ "/" ++ date.getD currentDate ++ "/reports/"
              ++ (if rt ∈ drone_report_types then "drone/" else "")
              ++ rt ++ "_" ++ timestamp ++ ".json")
    ∧ (rt ∈ drone_report_types ↔
        rt = "mission_plan" ∨ rt = "realtime_monitoring"
          ∨ rt = "image_analysis" ∨ rt = "maintenance_prediction") := by
  constructor
  · simp only [s3_report_keys, if_pos h]
    by_cases hd : rt ∈ drone_report_types <;>
      simp only [hd, if_pos, if_neg, if_true, if_false, ite_true, ite_false] <;>
      simp only [String.append_assoc] <;> rfl
  · simp [drone_report_types]

/-- C9 witness: concrete keys for a drone report type with no
caller-supplied date and for a plain report type with one. -/
theorem c9_report_write_keys_witness :
    s3_report_keys "FARM-001" "mission_plan" none "2024-01-01" "20240101_120000"
      = some ("FARM-001/2024-01-01/reports/drone/mission_plan_20240101_120000.md",
              "FARM-001/2024-01-01/reports/drone/mission_plan_20240101_120000.json")
    ∧ s3_report_keys "FARM-001" "weather_report" (some "2024-02-02") "2024-01-01"
        "20240202_120000"
      = some ("FARM-001/2024-02-02/reports/weather_report_20240202_120000.md",
              "FARM-001/2024-02-02/reports/weather_report_20240202_120000.json") := by
  constructor
  · have h := (c9_report_write_keys "FARM-001" "20240101_120000" "2024-01-01"
      none "mission_plan" (by decide)).1
    rw [h]; rfl
  · have h := (c9_report_write_keys "FARM-001" "20240202_120000" "2024-01-01"
      (some "2024-02-02") "weather_report" (by decide)).1
    rw [h]; rfl

/-- C4: for each enumerated guardrail field, holding the rest of the
payload fixed and valid, every value inside the closed set is accepted
and every value outside it is rejected with a reason naming the set's
members: `disease_risk_level` over Low/Medium/High, `classification`
over Positive/Neutral/Negative, `risk_level` over
minimal_risk/limited_risk/high_risk, and `overall_compliance_status`
over Compliant/Partially Compliant/Non-Compliant. -/
theorem c4_enum_closure (v raw : String) :
    (validate_weather_report_output (some (weatherEnumPayload v)) raw
      = if v ∈ ["Low", "Medium", "High"] then (true, raw)
        else (false, "disease_risk_level must be one of: Low, Medium, High."))
    ∧ (validate_compliance_output (some (complianceEnumPayload v)) raw
      = if v ∈ ["Positive", "Neutral", "Negative"] then (true, raw)
        else (false, "classification must be one of: Positive, Neutral, Negative."))
    ∧ (validate_eu_ai_act_output (some (euEnumPayload v "Compliant")) raw
      = if v ∈ ["minimal_risk", "limited_risk", "high_risk"] then (true, raw)
        else (false,
          "risk_level must be one of: minimal_risk, limited_risk, high_risk."))
    ∧ (validate_eu_ai_act_output (some (euEnumPayload "minimal_risk" v)) raw
      = if v ∈ ["Compliant", "Partially Compliant", "Non-Compliant"] then (true, raw)
        else (false,
          "overall_compliance_status must be one of: Compliant, Partially Compliant, Non-Compliant.")) := by
  refine ⟨?_, ?_, ?_, ?_⟩
  · have hbody : validate_weather_body (weatherEnumPayload v) raw =
        if !(["Low", "Medium", "High"].contains v)
        then .ok (false, "disease_risk_level must be one of: Low, Medium, High.")
        else .ok (true, raw) := rfl
    by_cases hv : v ∈ ["Low", "Medium", "High"]
    · have hc : (["Low", "Medium", "High"].contains v) = true := by simpa using hv
      simp [validate_weather_report_output, hbody, hc, hv]
    · have hc : (["Low", "Medium", "High"].contains v) = false := by simpa using hv
      simp [validate_weather_report_output, hbody, hc, hv]
  · have hbody : validate_compliance_body (complianceEnumPayload v) raw =
        if !(["Positive", "Neutral", "Negative"].contains v)
        then .ok (false, "classification must be one of: Positive, Neutral, Negative.")
        else .ok (true, raw) := rfl
    by_cases hv : v ∈ ["Positive", "Neutral", "Negative"]
    · have hc : (["Positive", "Neutral", "Negative"].contains v) = true := by
        simpa using hv
      simp [validate_compliance_output, hbody, hc, hv]
    · have hc : (["Positive", "Neutral", "Negative"].contains v) = false := by
        simpa using hv
      simp [validate_compliance_output, hbody, hc, hv]
  · have hbody : validate_eu_ai_act_body (euEnumPayload v "Compliant") raw =
        if !(["minimal_risk", "limited_risk", "high_risk"].contains v)
        then .ok (false,
          "risk_level must be one of: minimal_risk, limited_risk, high_risk.")
        else .ok (true, raw) := rfl
    by_cases hv : v ∈ ["minimal_risk", "limited_risk", "high_risk"]
    · have hc : (["minimal_risk", "limited_risk", "high_risk"].contains v) = true := by
        simpa using hv
      simp [validate_eu_ai_act_output, hbody, hc, hv]
    · have hc : (["minimal_risk", "limited_risk", "high_risk"].contains v) = false := by
        simpa using hv
      simp [validate_eu_ai_act_output, hbody, hc, hv]
  · have hbody : validate_eu_ai_act_body (euEnumPayload "minimal_risk" v) raw =
        if !(["Compliant", "Partially Compliant", "Non-Compliant"].contains v)
        then .ok (false,
          "overall_compliance_status must be one of: Compliant, Partially Compliant, Non-Compliant.")
        else .ok (true, raw) := rfl
    by_cases hv : v ∈ ["Compliant", "Partially Compliant", "Non-Compliant"]
    · have hc : (["Compliant", "Partially Compliant", "Non-Compliant"].contains v)
          = true := by simpa using hv
      simp [validate_eu_ai_act_output, hbody, hc, hv]
    · have hc : (["Compliant", "Partially Compliant", "Non-Compliant"].contains v)
          = false := by simpa using hv
      simp [validate_eu_ai_act_output, hbody, hc, hv]


/-- Helper: a successful Python string-keyed index means the value was a
dict binding the key. -/
theorem pyIndex_ok (j : Json) (k : String) (v : Json) (h : pyIndex j k = .ok v) :
    ∃ fs, j = Json.obj fs ∧ jlookup fs k = some v := by
  cases j with
  | obj fs =>
      refine ⟨fs, rfl, ?_⟩
      simp only [pyIndex] at h
      cases hl : jlookup fs k with
      | some w => rw [hl] at h; rw [Except.ok.inj h]
      | none => rw [hl] at h; exact Except.noConfusion h
  | null => exact Except.noConfusion h
  | bool b => exact Except.noConfusion h
  | num q => exact Except.noConfusion h
  | str s => exact Except.noConfusion h
  | arr xs => exact Except.noConfusion h

/-- Helper: an empty missing-fields result means every required field's
membership test succeeded affirmatively. -/
theorem missingIn_ok_nil (j : Json) :
    ∀ l, missingIn j l = .ok [] → ∀ f ∈ l, pyIn f j = .ok true := by
  intro l
  induction l with
  | nil => intro _ f hf; simp at hf
  | cons g gs ih =>
      intro h f hf
      simp only [missingIn] at h
      split at h
      · exact Except.noConfusion h
      · split at h
        · exact Except.noConfusion h
        · rename_i x1 b hp x2 rest hr
          split at h
          · rename_i hbt
            have hrest : rest = [] := Except.ok.inj h
            rcases List.mem_cons.mp hf with hfe | hfe
            · subst hfe; rw [hp, hbt]
            · exact ih (hrest ▸ hr) f hfe
          · simp at h

/-- Helper: when the per-image loop finds nothing to reject, every image
passed its membership tests for all required image fields. -/
theorem imagesLoop_ok_none :
    ∀ images idx, imagesLoop idx images = .ok none →
      ∀ img ∈ images, ∀ f ∈ requiredImageFields, pyIn f img = .ok true := by
  intro images
  induction images with
  | nil => intro _ _ img hm; simp at hm
  | cons im rest ih =>
      intro idx h img hm f hf
      simp only [imagesLoop] at h
      split at h
      · exact Except.noConfusion h
      · rename_i xs missing hmi
        split at h
        · exact Option.noConfusion (Except.ok.inj h)
        · rename_i hne
          have hnil : missing = [] := by
            cases missing with
            | nil => rfl
            | cons x xs => simp at hne
          rcases List.mem_cons.mp hm with hme | hme
          · subst hme; exact missingIn_ok_nil img _ (hnil ▸ hmi) f hf
          · exact ih (idx + 1) h img hme f hf

/-- Helper: a verdict produced inside the per-image loop is always a
rejection. -/
theorem imagesLoop_some_false :
    ∀ images idx w, imagesLoop idx images = .ok (some w) → w.1 = false := by
  intro images
  induction images with
  | nil => intro _ w h; exact Option.noConfusion (Except.ok.inj h)
  | cons im rest ih =>
      intro idx w h
      simp only [imagesLoop] at h
      split at h
      · exact Except.noConfusion h
      · split at h
        · rw [← Option.some.inj (Except.ok.inj h)]
        · exact ih (idx + 1) w h

/-- C10: the image-retriever guardrail accepts only payloads that are
dicts whose `images` field is a non-empty list, with every image passing
the membership test for `key`, `content_type`, `s3_uri`, `presigned_url`,
and whose `num_images_found` equals the actual image count (under Python
equality, where booleans coerce to 0/1); a count mismatch on an otherwise
valid payload is rejected with a reason stating both numbers. -/
theorem c10_image_guardrail_count :
    (∀ (data : Json) (raw : String),
      (validate_image_retriever_output (some data) raw).1 = true →
      ∃ fs images nv, data = Json.obj fs
        ∧ jlookup fs "images" = some (Json.arr images)
        ∧ images ≠ []
        ∧ (∀ img ∈ images, ∀ f ∈ requiredImageFields, pyIn f img = .ok true)
        ∧ jlookup fs "num_images_found" = some nv
        ∧ pyEqNat nv images.length = true)
    ∧ (∀ (m : ℕ) (raw : String), m ≠ 2 →
      validate_image_retriever_output (some (imageCountPayload m)) raw
        = (false, "num_images_found (" ++ toString m
            ++ ") does not match actual image count (2). Please correct the count.")) := by
  constructor
  · intro data raw h
    simp only [validate_image_retriever_output] at h
    cases hb : validate_image_retriever_body data raw with
    | error e => rw [hb] at h; simp at h
    | ok v =>
        rw [hb] at h
        have hv1 : v.1 = true := h
        simp only [validate_image_retriever_body] at hb
        split at hb
        · exact Except.noConfusion hb
        · split at hb
          · rw [← Except.ok.inj hb] at hv1; simp at hv1
          · split at hb
            · exact Except.noConfusion hb
            · rename_i x2 images hi
              split at hb
              · rw [← Except.ok.inj hb] at hv1; simp at hv1
              · rename_i hlen
                split at hb
                · exact Except.noConfusion hb
                · rename_i w hloop
                  have hw := imagesLoop_some_false images 0 w hloop
                  rw [← Except.ok.inj hb] at hv1
                  rw [hv1] at hw
                  exact Bool.noConfusion hw
                · rename_i hloop
                  split at hb
                  · exact Except.noConfusion hb
                  · rename_i x3 n hn
                    split at hb
                    · rw [← Except.ok.inj hb] at hv1; simp at hv1
                    · rename_i hcond
                      have hpe : pyEqNat n images.length = true := by
                        cases hx : pyEqNat n images.length with
                        | true => rfl
                        | false => exact absurd (by rw [hx]; rfl) hcond
                      obtain ⟨fs, rfl, hfs⟩ := pyIndex_ok _ _ _ hi
                      obtain ⟨fs2, hfseq, hfs2⟩ := pyIndex_ok _ _ _ hn
                      refine ⟨fs, images, n, rfl, hfs, ?_,
                        imagesLoop_ok_none images 0 hloop, ?_, hpe⟩
                      · intro hnil
                        exact hlen (by simp [hnil])
                      · rw [Json.obj.inj hfseq]
                        exact hfs2
            · rw [← Except.ok.inj hb] at hv1; simp at hv1
  · intro m raw hm
    have hbody : validate_image_retriever_body (imageCountPayload m) raw =
        if !(pyEqNat (Json.num (m : ℚ)) 2)
        then .ok (false, "num_images_found (" ++ pyStr (Json.num (m : ℚ))
          ++ ") does not match actual image count (" ++ "2"
          ++ "). Please correct the count.")
        else .ok (true, raw) := rfl
    have hne : pyEqNat (Json.num (m : ℚ)) 2 = false := by
      simp only [pyEqNat, decide_eq_false_iff_not]
      exact_mod_cast hm
    have hstr : pyStr (Json.num (m : ℚ)) = toString m := by
      simp only [pyStr, Rat.den_natCast, ite_true, if_true, Rat.num_natCast]
      rfl
    simp only [validate_image_retriever_output, hbody, hne, Bool.not_false, if_true,
      ite_true, hstr]
    simp only [String.append_assoc]
    rfl

/-- C10 witness: a payload with two well-formed images and a matching
count is accepted (yielding the structural facts), and the same payload
with `num_images_found = 3` is rejected naming both numbers. -/
theorem c10_image_guardrail_count_witness :
    (∃ fs images nv, imageCountPayload 2 = Json.obj fs
        ∧ jlookup fs "images" = some (Json.arr images)
        ∧ images ≠ []
        ∧ (∀ img ∈ images, ∀ f ∈ requiredImageFields, pyIn f img = .ok true)
        ∧ jlookup fs "num_images_found" = some nv
        ∧ pyEqNat nv images.length = true)
    ∧ validate_image_retriever_output (some (imageCountPayload 3)) "x"
        = (false,
          "num_images_found (3) does not match actual image count (2). Please correct the count.") :=
  ⟨c10_image_guardrail_count.1 (imageCountPayload 2) "ok" (by decide),
   c10_image_guardrail_count.2 3 "x" (by decide)⟩
